import Mathlib

/-!
Shallow embedding of the execution-offload path of the repository.

Client side (device1, crate containerd-shim-wasm):
- `is_linux_container`, `Executor` (fields `engine`, `inner : OnceCell`),
  `Executor.innerGet` (the memoizing `inner`), `Executor.validate`,
  `Executor.exec` — from `src/sys/unix/container/executor.rs`.
- `distributedExec`, `distributedValidate` — from
  `src/sys/unix/container/distributed_executer.rs`.

Server side (device2): `run_wasi_server` — from `src/main.rs`.

External collaborators are modelled as explicit data passed in:
- the filesystem behind `resolve_in_path` becomes the ordered
  `Ctx.candidates` list, each candidate carrying its permission mode
  (`none` when `metadata()` fails, mirroring `.ok()?`) and file bytes;
- the `Engine` trait object becomes a record of its three observable
  behaviours (`name`, `can_handle`, `run_wasi`);
- the gRPC channel becomes a `Remote` record (connection outcome and the
  remote call's outcome per request);
- the wamr runtime becomes a `WamrEnv` record (outcome of each fallible
  step of the per-request pipeline).

Process-level effects (`std::process::exit`, `.expect` panics, returning
`Ok(())` / `Err(..)` from `exec`) are reified in `ProcessOutcome`, and the
server handler's `Result<Response<ExecResult>, Status>` in `ServerOutcome`.
-/

/-- A candidate executable produced by `resolve_in_path` for `arg0`:
its permission bits (`none` models `p.metadata().ok()?` failing) and the
bytes of the file on disk. -/
structure Candidate where
  mode : Option Nat
  bytes : List Nat
  deriving Repr, DecidableEq

/-- The `WasiContext<'_>` runtime context as the classifier and the
dispatcher observe it: entry-point source kind (`Source::Oci` wasm layers
versus a plain path), the bytes `source.as_bytes()` yields (`none` models
its failure), `arg0`, the ordered result of resolving `arg0` in the
executable search path, and the entrypoint `func`/`name` plus the
container's `args`/`envs`. -/
structure Ctx where
  sourceIsOci : Bool
  sourceBytes : Option (List Nat)
  arg0 : Option String
  candidates : List Candidate
  func : String
  name : Option String
  args : List String
  envs : List String
  deriving Repr, DecidableEq

/-- The candidate-selection step of `is_linux_container`:
`.find_map(|p| { let mode = p.metadata().ok()?.permissions().mode();
(mode & 0o001 != 0).then_some(p) })`. Note the mask is `0o001`, the
others-execute bit only. -/
def selectExecutable (cs : List Candidate) : Option Candidate :=
  cs.findSome? fun c =>
    match c.mode with
    | none => none
    | some m => if Nat.land m 0o001 != 0 then some c else none

/-- `File::open(executable)?.read_exact(&mut [0; 4])`: the first four
bytes, or the `read_exact` error when the file is shorter than four
bytes ("failed to fill whole buffer" is std's message for that case). -/
def read_exact4 (bytes : List Nat) : Except String (Nat × Nat × Nat × Nat) :=
  match bytes with
  | b0 :: b1 :: b2 :: b3 :: _ => Except.ok (b0, b1, b2, b3)
  | _ => Except.error "failed to fill whole buffer"

/-- `is_linux_container` from executor.rs lines 155-181: bail on wasm
layers, require `arg0`, select the first candidate with the `0o001` mode
bit, read exactly four bytes, and accept the ELF magic
`[0x7f, 0x45, 0x4c, 0x46]` or a shebang `[0x23, 0x21, ..]`. -/
def is_linux_container (ctx : Ctx) : Except String Unit :=
  if ctx.sourceIsOci then Except.error "the entry point contains wasm layers"
  else match ctx.arg0 with
  | none => Except.error "no entrypoint provided"
  | some _ =>
    match selectExecutable ctx.candidates with
    | none => Except.error "entrypoint not found"
    | some c =>
      match read_exact4 c.bytes with
      | Except.error e => Except.error e
      | Except.ok (b0, b1, b2, b3) =>
        if b0 = 0x7f ∧ b1 = 0x45 ∧ b2 = 0x4c ∧ b3 = 0x46 then Except.ok ()
        else if b0 = 0x23 ∧ b1 = 0x21 then Except.ok ()
        else Except.error "not a valid script or elf file"

/-- The `Engine` trait as the executor observes it: `E::name()`,
`can_handle` (the WASM capability probe) and `run_wasi` (local execution
returning an exit code). -/
structure Engine where
  name : String
  can_handle : Ctx → Except String Unit
  run_wasi : Ctx → Except String Int

/-- The `InnerExecutor` enum of executor.rs (`Wasm | Linux | CantHandle`).
`Linux` is the spec's `Native`, `CantHandle` the spec's `Unsupported`. -/
inductive InnerExecutor where
  | Wasm
  | Linux
  | CantHandle
  deriving Repr, DecidableEq

/-- The body of the `get_or_init` closure in `Executor::inner`
(executor.rs lines 135-151): Linux when `is_linux_container` succeeds,
otherwise Wasm when the engine's `can_handle` succeeds, otherwise
CantHandle. -/
def classify (engine : Engine) (ctx : Ctx) : InnerExecutor :=
  match is_linux_container ctx with
  | Except.ok _ => InnerExecutor.Linux
  | Except.error _ =>
    match engine.can_handle ctx with
    | Except.ok _ => InnerExecutor.Wasm
    | Except.error _ => InnerExecutor.CantHandle

/-- The `Executor<E>` value: its engine and the `OnceCell<InnerExecutor>`
cache (`none` = cell not yet initialized). The `wasm_layers`/`platform`
fields only feed the `Ctx` value and are carried there instead. -/
structure Executor where
  engine : Engine
  inner : Option InnerExecutor

/-- A fresh `Executor::new(..)`: the `OnceCell` starts unset. -/
def freshExecutor (engine : Engine) : Executor :=
  { engine := engine, inner := none }

/-- `Executor::inner` (executor.rs lines 134-152), i.e.
`self.inner.get_or_init(|| ...)` with the state passing made explicit:
returns the decision, the updated executor, and how many times the
classification body (which performs the filesystem probe) ran — `0` when
the cell was already set, `1` when it was computed now. -/
def Executor.innerGet (ex : Executor) (ctx : Ctx) : InnerExecutor × Executor × Nat :=
  match ex.inner with
  | some i => (i, ex, 0)
  | none =>
    let i := classify ex.engine ctx
    (i, { ex with inner := some i }, 1)

/-- `ExecutorValidationError::CantHandle(&'static str)`: the error carries
exactly one string, the engine name `E::name()`. -/
inductive ValidationError where
  | CantHandle (engineName : String)
  deriving Repr, DecidableEq

/-- The process-level outcome of an `exec` call:
`returnErr name` = `Err(ExecutorError::CantHandle(name))` returned to the
caller; `delegated spec` = `DefaultExecutor {}.exec(spec)` invoked with
that spec (the NativeDelegate, an external collaborator); `exit code
logged` = `std::process::exit(code)` after optionally logging an error;
`panicked msg` = a `.expect(msg)` fired; `returnOk` = the function
returned `Ok(())`. -/
inductive ProcessOutcome where
  | returnErr (engineName : String)
  | delegated (spec : Ctx)
  | exit (code : Int) (logged : Option String)
  | panicked (msg : String)
  | returnOk
  deriving Repr, DecidableEq

/-- `Executor::validate` (executor.rs lines 37-46): CantHandle maps to
`Err(ExecutorValidationError::CantHandle(E::name()))`, anything else to
`Ok(())`. Returns also the updated executor and the probe count of the
embedded `inner` call. -/
def Executor.validate (ex : Executor) (ctx : Ctx) :
    (Except ValidationError Unit) × Executor × Nat :=
  match ex.innerGet ctx with
  | (InnerExecutor.CantHandle, ex2, n) =>
      (Except.error (ValidationError.CantHandle ex.engine.name), ex2, n)
  | (_, ex2, n) => (Except.ok (), ex2, n)

/-- `Executor::exec` (executor.rs lines 49-78): CantHandle returns
`Err(CantHandle(E::name()))`; Linux delegates the same spec to
`DefaultExecutor`; Wasm runs `engine.run_wasi` and exits with the
returned code on success, or logs the error and exits 137 on failure. -/
def Executor.exec (ex : Executor) (ctx : Ctx) :
    ProcessOutcome × Executor × Nat :=
  match ex.innerGet ctx with
  | (InnerExecutor.CantHandle, ex2, n) =>
      (ProcessOutcome.returnErr ex.engine.name, ex2, n)
  | (InnerExecutor.Linux, ex2, n) => (ProcessOutcome.delegated ctx, ex2, n)
  | (InnerExecutor.Wasm, ex2, n) =>
    match ex.engine.run_wasi ctx with
    | Except.ok code => (ProcessOutcome.exit code none, ex2, n)
    | Except.error err => (ProcessOutcome.exit 137 (some err), ex2, n)

/-- The protobuf request message `WasiContext` of proto/executer.proto
(args, envs, wasm_bytes, func_name, module_name). -/
structure WasiContextMsg where
  args : List String
  envs : List String
  wasm_bytes : List Nat
  func_name : String
  module_name : String
  deriving Repr, DecidableEq

/-- The request value `DistributedExecuter::exec` builds (lines 42-69 of
distributed_executer.rs): args and envs verbatim, the source bytes, the
entrypoint func, and `name.unwrap_or_else(|| String::from("main"))`. -/
def buildRequest (ctx : Ctx) (bytes : List Nat) : WasiContextMsg :=
  { args := ctx.args
    envs := ctx.envs
    wasm_bytes := bytes
    func_name := ctx.func
    module_name := ctx.name.getD "main" }

/-- The gRPC side as the dispatcher observes it: the outcome of
`DistributedExecuterClient::connect` and, per request, the outcome of the
unary `run_wasi` call (`Ok status` = the `ExecResult.status` field). -/
structure Remote where
  connect : Except String Unit
  run_wasi : WasiContextMsg → Except String Int

/-- `DistributedExecuter::exec` (distributed_executer.rs lines 34-80):
take `source.as_bytes()` (`.expect("failed to get bytes from source")`),
connect (`.expect("failed to connect to gRPC server")`), send the built
request (`.expect("error while calling the rpc function")`), print the
response, and return `Ok(())`. Note: no classification is consulted, the
returned status is not used as an exit code, and every failure is a
panic. The second component records the request actually sent over the
network (`none` when no remote call was issued). -/
def distributedExec (remote : Remote) (ctx : Ctx) :
    ProcessOutcome × Option WasiContextMsg :=
  match ctx.sourceBytes with
  | none => (ProcessOutcome.panicked "failed to get bytes from source", none)
  | some bytes =>
    match remote.connect with
    | Except.error _ =>
        (ProcessOutcome.panicked "failed to connect to gRPC server", none)
    | Except.ok _ =>
      let req := buildRequest ctx bytes
      match remote.run_wasi req with
      | Except.error _ =>
          (ProcessOutcome.panicked "error while calling the rpc function", some req)
      | Except.ok _ => (ProcessOutcome.returnOk, some req)

/-- `DistributedExecuter::validate` (distributed_executer.rs lines
86-88): unconditionally `Ok(())`, whatever the spec. -/
def distributedValidate (_ctx : Ctx) : Except ValidationError Unit :=
  Except.ok ()

/-- The wamr runtime as the server handler observes it: the outcome of
each fallible step of device2's per-request pipeline. `call` is the
invoked export's numeric return value on success. -/
structure WamrEnv where
  runtime_new : Except String Unit
  module_from_buf : List Nat → String → Except String Unit
  instance_new : Nat → Except String Unit
  find_export_func : String → Except String Unit
  call : Except String Int

/-- The outcome of the server handler, whose Rust type is
`Result<Response<ExecResult>, Status>`: `ok status` =
`Ok(Response::new(ExecResult { status }))`; `rpcError` = `Err(Status)` —
present in the signature but never constructed by the code; `panicked
msg` = a `.expect(msg)` fired. -/
inductive ServerOutcome where
  | ok (status : Int)
  | rpcError (message : String)
  | panicked (msg : String)
  deriving Repr, DecidableEq

/-- `Device2Executer::run_wasi` (device2 src/main.rs lines 36-84):
runtime creation, `Module::from_buf(&runtime, &wasm_bytes,
&module_name)`, `WamrInstance::new(&runtime, &module, 1024 * 64)`,
`Function::find_export_func(&instance, &func_name)`, then
`function.call(&instance, &vec![]).map(|_| 0)` — the export's return
value is discarded and a successful call always yields status 0. Every
fallible step is unwrapped with `.expect(..)`, so every failure is a
panic, never an `Err(Status)` reply. -/
def run_wasi_server (env : WamrEnv) (req : WasiContextMsg) : ServerOutcome :=
  match env.runtime_new with
  | Except.error _ => ServerOutcome.panicked "failed to create runtime"
  | Except.ok _ =>
  match env.module_from_buf req.wasm_bytes req.module_name with
  | Except.error _ => ServerOutcome.panicked "failed to create module from bytes"
  | Except.ok _ =>
  match env.instance_new (1024 * 64) with
  | Except.error _ => ServerOutcome.panicked "failed to create wamr instance"
  | Except.ok _ =>
  match env.find_export_func req.func_name with
  | Except.error _ => ServerOutcome.panicked "failed find function"
  | Except.ok _ =>
  match env.call with
  | Except.error _ => ServerOutcome.panicked "failed to call function"
  | Except.ok _ => ServerOutcome.ok 0

deriving instance DecidableEq for Except

/-- An engine whose capability probe rejects with reason "r0"
(`E::name()` = "myEngine"). -/
def engineNo : Engine :=
  { name := "myEngine"
    can_handle := fun _ => Except.error "r0"
    run_wasi := fun _ => Except.error "not run" }

/-- An engine whose capability probe accepts and whose local run returns
exit code 0. -/
def engineYes : Engine :=
  { name := "myEngine"
    can_handle := fun _ => Except.ok ()
    run_wasi := fun _ => Except.ok 0 }

/-- Like `engineYes` but its local run returns exit code 5. -/
def engineYes5 : Engine :=
  { engineYes with run_wasi := fun _ => Except.ok 5 }

/-- The four ELF magic bytes. -/
def elfHeader : List Nat := [0x7f, 0x45, 0x4c, 0x46]

/-- The four wasm magic bytes. -/
def wasmMagic : List Nat := [0x00, 0x61, 0x73, 0x6d]

/-- A world-executable ELF candidate (mode 0o755) with bytes after the
magic. -/
def cElf : Candidate := { mode := some 0o755, bytes := elfHeader ++ [0x02, 0x00] }

/-- A context whose resolved entrypoint is the ELF candidate `cElf`
(spec Scenario A: `arg0 = "/bin/true"`). -/
def ctxElf : Ctx :=
  { sourceIsOci := false
    sourceBytes := some (elfHeader ++ [0x02, 0x00])
    arg0 := some "/bin/true"
    candidates := [cElf]
    func := "main"
    name := none
    args := ["/bin/true"]
    envs := [] }

/-- A context whose entrypoint source is embedded wasm layers
(`Source::Oci`), carrying the wasm bytes. -/
def ctxWasm : Ctx :=
  { sourceIsOci := true
    sourceBytes := some wasmMagic
    arg0 := none
    candidates := []
    func := "add_one"
    name := none
    args := []
    envs := [] }

/-- A context whose resolved entrypoint file is neither ELF nor a script
(first four bytes 1 2 3 4). -/
def ctxUnsupported : Ctx :=
  { sourceIsOci := false
    sourceBytes := some [1, 2, 3, 4, 5]
    arg0 := some "/app/x"
    candidates := [{ mode := some 0o755, bytes := [1, 2, 3, 4, 5] }]
    func := "main"
    name := none
    args := ["/app/x"]
    envs := [] }

/-- A context whose resolved entrypoint file is exactly the two bytes
"#!" — a shebang prefix in a file shorter than four bytes. -/
def ctxShebangShort : Ctx :=
  { sourceIsOci := false
    sourceBytes := some [0x23, 0x21]
    arg0 := some "/app/s"
    candidates := [{ mode := some 0o755, bytes := [0x23, 0x21] }]
    func := "main"
    name := none
    args := ["/app/s"]
    envs := [] }

/-- A context whose resolved entrypoint file is a single byte. -/
def ctxShortRead : Ctx :=
  { sourceIsOci := false
    sourceBytes := some [0x00]
    arg0 := some "/app/one"
    candidates := [{ mode := some 0o755, bytes := [0x00] }]
    func := "main"
    name := none
    args := ["/app/one"]
    envs := [] }

/-- A context whose only path candidate is an ELF file with mode 0o700:
executable by its owner but with the others-execute bit clear. -/
def ctxOwnerExec : Ctx :=
  { sourceIsOci := false
    sourceBytes := some elfHeader
    arg0 := some "/app/own"
    candidates := [{ mode := some 0o700, bytes := elfHeader }]
    func := "main"
    name := none
    args := ["/app/own"]
    envs := [] }

/-- A remote endpoint that accepts the connection and answers status 0. -/
def remoteOk0 : Remote :=
  { connect := Except.ok (), run_wasi := fun _ => Except.ok 0 }

/-- A remote endpoint that accepts the connection and answers status 5. -/
def remoteOk5 : Remote :=
  { connect := Except.ok (), run_wasi := fun _ => Except.ok 5 }

/-- A remote endpoint that accepts the connection but whose `run_wasi`
call fails (e.g. the server aborted mid-call). -/
def remoteCallFails : Remote :=
  { connect := Except.ok (), run_wasi := fun _ => Except.error "status: unavailable" }

/-- A remote endpoint that refuses the connection. -/
def remoteConnRefused : Remote :=
  { connect := Except.error "connection refused", run_wasi := fun _ => Except.ok 0 }

/-- A wamr environment in which every step succeeds and the invoked
export returns `v`. -/
def wamrOkReturning (v : Int) : WamrEnv :=
  { runtime_new := Except.ok ()
    module_from_buf := fun _ _ => Except.ok ()
    instance_new := fun _ => Except.ok ()
    find_export_func := fun _ => Except.ok ()
    call := Except.ok v }

/-- A wamr environment in which module construction fails on an empty
byte buffer (an empty buffer is not a parseable wasm module) and every
other step succeeds. -/
def wamrEmptyModuleFails : WamrEnv :=
  { wamrOkReturning 0 with
    module_from_buf := fun bytes _ =>
      if bytes.isEmpty then Except.error "unexpected end of input" else Except.ok () }

/-- A well-formed request targeting export "add_one" of module "main". -/
def reqMain : WasiContextMsg :=
  { args := []
    envs := []
    wasm_bytes := wasmMagic
    func_name := "add_one"
    module_name := "main" }

/-- A request with empty `wasm_bytes`. -/
def reqEmpty : WasiContextMsg := { reqMain with wasm_bytes := [] }

/-- A buffer shorter than four bytes makes the exact four-byte read fail
with the read error, never reach the magic-number comparison. -/
theorem read_exact4_short (bs : List Nat) (h : bs.length < 4) :
    read_exact4 bs = Except.error "failed to fill whole buffer" := by
  rcases bs with _ | ⟨a, _ | ⟨b, _ | ⟨c, _ | ⟨d, rest⟩⟩⟩⟩
  · rfl
  · rfl
  · rfl
  · rfl
  · simp only [List.length_cons] at h
    omega

/-- The selection predicate of `is_linux_container`: metadata readable
and the others-execute bit (`0o001`) set in the mode. -/
def hasOtherExecBit (c : Candidate) : Bool :=
  match c.mode with
  | none => false
  | some m => Nat.land m 0o001 != 0

/-- The candidate-selection step written through `hasOtherExecBit`. -/
theorem selectExecutable_eq_filter (cs : List Candidate) :
    selectExecutable cs
      = cs.findSome? (fun c => if hasOtherExecBit c then some c else none) := by
  unfold selectExecutable hasOtherExecBit
  congr 1
  funext c
  cases c.mode <;> simp

/-- The server handler never constructs an `Err(Status)` reply: every
failure path in the baseline is an `.expect` panic. -/
theorem run_wasi_server_no_typed_error (env : WamrEnv) (req : WasiContextMsg)
    (s : String) : run_wasi_server env req ≠ ServerOutcome.rpcError s := by
  unfold run_wasi_server
  cases env.runtime_new <;>
    cases env.module_from_buf req.wasm_bytes req.module_name <;>
    cases env.instance_new (1024 * 64) <;>
    cases env.find_export_func req.func_name <;>
    cases env.call <;> simp

/-- C1 (amended): the exit-code mapping of the spec holds in
`Executor::exec` for the engine's local `run_wasi` outcome — `Ok(N)`
exits with code `N`, `Err` logs the failure and exits 137 without
re-raising — but the remote dispatcher `DistributedExecuter::exec` does
not implement it: when the remote `RunWasi` call returns `statusCode = N`
it prints the response and returns `Ok(())` without terminating with
code `N`, and when the remote call fails it panics instead of logging
and exiting 137. -/
theorem wasm_exit_mapping_local_not_remote (engine : Engine) (ctx : Ctx)
    (remote : Remote) (bytes : List Nat) (n : Int) (err : String)
    (h : classify engine ctx = InnerExecutor.Wasm) :
    (engine.run_wasi ctx = Except.ok n →
      ((freshExecutor engine).exec ctx).1 = ProcessOutcome.exit n none) ∧
    (engine.run_wasi ctx = Except.error err →
      ((freshExecutor engine).exec ctx).1 = ProcessOutcome.exit 137 (some err)) ∧
    (ctx.sourceBytes = some bytes → remote.connect = Except.ok () →
      remote.run_wasi (buildRequest ctx bytes) = Except.ok n →
      distributedExec remote ctx
        = (ProcessOutcome.returnOk, some (buildRequest ctx bytes))) ∧
    (ctx.sourceBytes = some bytes → remote.connect = Except.ok () →
      remote.run_wasi (buildRequest ctx bytes) = Except.error err →
      distributedExec remote ctx
        = (ProcessOutcome.panicked "error while calling the rpc function",
           some (buildRequest ctx bytes))) := by
  refine ⟨?_, ?_, ?_, ?_⟩
  · intro hr
    simp [Executor.exec, Executor.innerGet, freshExecutor, h, hr]
  · intro hr
    simp [Executor.exec, Executor.innerGet, freshExecutor, h, hr]
  · intro hb hc hr
    simp [distributedExec, hb, hc, hr]
  · intro hb hc hr
    simp [distributedExec, hb, hc, hr]

/-- C1 (witness): with an engine whose local run returns 5 the process
exits with code 5, while the remote dispatcher, told status 5 by the
remote endpoint, just returns `Ok(())`. -/
theorem wasm_exit_mapping_local_not_remote_witness :
    ((freshExecutor engineYes5).exec ctxWasm).1 = ProcessOutcome.exit 5 none ∧
    distributedExec remoteOk5 ctxWasm
      = (ProcessOutcome.returnOk, some (buildRequest ctxWasm wasmMagic)) := by
  have h := wasm_exit_mapping_local_not_remote engineYes5 ctxWasm remoteOk5
    wasmMagic 5 "e" (by decide)
  exact ⟨h.1 (by decide), h.2.2.1 rfl rfl (by decide)⟩

/-- C1 (counterexample): on a WASM-classified context the remote
dispatcher, given remote status 5, neither exits with code 5 (it returns
`Ok(())`) nor, on a failing remote call or refused connection, exits
with 137 — it panics, re-raising the failure. -/
theorem remote_status_ignored_and_failure_panics :
    classify engineYes ctxWasm = InnerExecutor.Wasm ∧
    (distributedExec remoteOk5 ctxWasm).1 = ProcessOutcome.returnOk ∧
    (distributedExec remoteCallFails ctxWasm).1
        = ProcessOutcome.panicked "error while calling the rpc function" ∧
    (distributedExec remoteConnRefused ctxWasm).1
        = ProcessOutcome.panicked "failed to connect to gRPC server" := by decide

/-- C2 (amended): for every request whose pipeline completes through a
successful invocation, the server replies with `statusCode = 0`,
whatever numeric value the invoked export returned — `.map(|_| 0)`
discards the export's return value. -/
theorem server_status_always_zero (env : WamrEnv) (req : WasiContextMsg) (v : Int)
    (h1 : env.runtime_new = Except.ok ())
    (h2 : env.module_from_buf req.wasm_bytes req.module_name = Except.ok ())
    (h3 : env.instance_new (1024 * 64) = Except.ok ())
    (h4 : env.find_export_func req.func_name = Except.ok ())
    (h5 : env.call = Except.ok v) :
    run_wasi_server env req = ServerOutcome.ok 0 := by
  simp [run_wasi_server, h1, h2, h3, h4, h5]

/-- C2 (witness): a request whose export returns 7 still gets reply 0. -/
theorem server_status_always_zero_witness :
    run_wasi_server (wamrOkReturning 7) reqMain = ServerOutcome.ok 0 :=
  server_status_always_zero (wamrOkReturning 7) reqMain 7 rfl rfl rfl rfl rfl

/-- C2 (counterexample): the invoked export returns 7, the reply carries
status 0, not 7 — the returned status does not equal the value the
invoked WASM function returned. -/
theorem export_return_value_discarded :
    (wamrOkReturning 7).call = Except.ok 7 ∧
    run_wasi_server (wamrOkReturning 7) reqMain = ServerOutcome.ok 0 ∧
    run_wasi_server (wamrOkReturning 7) reqMain ≠ ServerOutcome.ok 7 := by decide

/-- C3: a request with empty `wasm_bytes` makes module construction
fail and the handler panic via `.expect("failed to create module from
bytes")`; no `Err(Status)` reply is produced (the code never constructs
one), contradicting the requirement that the service reject with a
typed RPC error and remain serviceable. -/
theorem empty_wasm_bytes_panics_not_typed_error :
    reqEmpty.wasm_bytes = [] ∧
    run_wasi_server wamrEmptyModuleFails reqEmpty
        = ServerOutcome.panicked "failed to create module from bytes" := by decide

/-- C4 (amended): a resolved candidate whose first four bytes are the
ELF magic classifies Native (Linux) regardless of subsequent bytes and
size, and so does a candidate starting with "#!" provided at least four
bytes are readable; a "#!" file shorter than four bytes instead fails
the read (see the counterexample). -/
theorem elf_or_shebang_classifies_native (engine : Engine) (ctx : Ctx)
    (c : Candidate) (a0 : String)
    (hoci : ctx.sourceIsOci = false) (ha : ctx.arg0 = some a0)
    (hsel : selectExecutable ctx.candidates = some c)
    (hmagic : (∃ rest, c.bytes = 0x7f :: 0x45 :: 0x4c :: 0x46 :: rest) ∨
              (∃ b2 b3 rest, c.bytes = 0x23 :: 0x21 :: b2 :: b3 :: rest)) :
    classify engine ctx = InnerExecutor.Linux := by
  have hok : is_linux_container ctx = Except.ok () := by
    rcases hmagic with ⟨rest, hb⟩ | ⟨b2, b3, rest, hb⟩ <;>
      simp [is_linux_container, hoci, ha, hsel, read_exact4, hb]
  simp [classify, hok]

/-- C4 (witness): the ELF candidate of Scenario A classifies Native. -/
theorem elf_or_shebang_classifies_native_witness :
    classify engineNo ctxElf = InnerExecutor.Linux :=
  elf_or_shebang_classifies_native engineNo ctxElf cElf "/bin/true"
    rfl rfl (by decide) (Or.inl ⟨[0x02, 0x00], rfl⟩)

/-- C4 (counterexample): a resolved candidate file consisting of exactly
the two bytes "#!" (0x23 0x21) does not classify Native: the four-byte
read fails first, and classification falls through to the capability
probe (CantHandle with a rejecting engine, Wasm with an accepting one). -/
theorem short_shebang_not_native :
    ctxShebangShort.candidates = [Candidate.mk (some 0o755) [0x23, 0x21]] ∧
    selectExecutable ctxShebangShort.candidates
        = some (Candidate.mk (some 0o755) [0x23, 0x21]) ∧
    classify engineNo ctxShebangShort = InnerExecutor.CantHandle ∧
    classify engineYes ctxShebangShort = InnerExecutor.Wasm := by decide

/-- C5 (amended): the classifier selects the first candidate, in search
order, whose metadata is readable and whose file mode has the
others-execute bit `0o001` set; the owner and group execute bits do not
qualify a candidate (see the counterexample). -/
theorem select_first_other_exec (cs : List Candidate) (c : Candidate) :
    selectExecutable cs = some c ↔
      hasOtherExecBit c = true ∧
      ∃ l1 l2, cs = l1 ++ c :: l2 ∧ ∀ x ∈ l1, hasOtherExecBit x = false := by
  rw [selectExecutable_eq_filter]
  induction cs with
  | nil =>
    constructor
    · intro h
      simp at h
    · rintro ⟨_, l1, l2, heq, _⟩
      cases l1 <;> simp at heq
  | cons a tail ih =>
    rw [List.findSome?_cons]
    cases hq : hasOtherExecBit a with
    | true =>
      simp only [hq, if_true]
      constructor
      · intro h
        have hac : a = c := by
          simpa using h
        subst hac
        exact ⟨hq, [], tail, rfl, by intro x hx; cases hx⟩
      · rintro ⟨hc, l1, l2, heq, hall⟩
        cases l1 with
        | nil =>
          simp at heq
          rw [heq.1]
        | cons b t =>
          simp at heq
          have hb := hall b (by simp)
          rw [← heq.1] at hb
          rw [hq] at hb
          cases hb
    | false =>
      simp only [hq, Bool.false_eq_true, if_false]
      rw [ih]
      constructor
      · rintro ⟨hc, l1, l2, heq, hall⟩
        refine ⟨hc, a :: l1, l2, by rw [heq]; rfl, ?_⟩
        intro x hx
        rcases List.mem_cons.mp hx with hxa | hxl
        · rw [hxa, hq]
        · exact hall x hxl
      · rintro ⟨hc, l1, l2, heq, hall⟩
        cases l1 with
        | nil =>
          simp at heq
          rw [heq.1] at hq
          rw [hq] at hc
          cases hc
        | cons b t =>
          simp at heq
          exact ⟨hc, t, l2, heq.2, fun x hx => hall x (List.mem_cons_of_mem b hx)⟩

/-- C5 (counterexample): a candidate with mode 0o700 — the owner execute
bit set, an executable bit by the claim's reading — is skipped: no
candidate is selected, the classifier reports "entrypoint not found",
and the ELF file does not classify Native. -/
theorem owner_exec_bit_not_selected :
    Nat.land 0o700 0o100 ≠ 0 ∧
    selectExecutable [Candidate.mk (some 0o700) elfHeader] = none ∧
    is_linux_container ctxOwnerExec = Except.error "entrypoint not found" ∧
    classify engineNo ctxOwnerExec ≠ InnerExecutor.Linux := by decide

/-- C6 (amended): a resolved candidate file shorter than four bytes is a
read error ("failed to fill whole buffer"), not a magic-number mismatch,
and never classifies Native; but the result is not unconditionally
Unsupported — classification falls through to the WASM capability probe,
yielding Wasm when the engine accepts and CantHandle when it rejects. -/
theorem short_file_read_error_falls_through (engine : Engine) (ctx : Ctx)
    (c : Candidate) (a0 : String)
    (hoci : ctx.sourceIsOci = false) (ha : ctx.arg0 = some a0)
    (hsel : selectExecutable ctx.candidates = some c)
    (hshort : c.bytes.length < 4) :
    is_linux_container ctx = Except.error "failed to fill whole buffer" ∧
    classify engine ctx ≠ InnerExecutor.Linux ∧
    (engine.can_handle ctx = Except.ok () →
      classify engine ctx = InnerExecutor.Wasm) ∧
    (∀ e, engine.can_handle ctx = Except.error e →
      classify engine ctx = InnerExecutor.CantHandle) := by
  have herr : is_linux_container ctx = Except.error "failed to fill whole buffer" := by
    simp [is_linux_container, hoci, ha, hsel, read_exact4_short c.bytes hshort]
  refine ⟨herr, ?_, ?_, ?_⟩
  · simp only [classify, herr]
    cases hch : engine.can_handle ctx <;> simp
  · intro hch
    simp [classify, herr, hch]
  · intro e hch
    simp [classify, herr, hch]

/-- C6 (witness): a one-byte candidate file with an accepting engine. -/
theorem short_file_read_error_falls_through_witness :
    is_linux_container ctxShortRead = Except.error "failed to fill whole buffer" ∧
    classify engineYes ctxShortRead = InnerExecutor.Wasm := by
  have h := short_file_read_error_falls_through engineYes ctxShortRead
    (Candidate.mk (some 0o755) [0x00]) "/app/one" rfl rfl (by decide) (by decide)
  exact ⟨h.1, h.2.2.1 rfl⟩

/-- C6 (counterexample): a context whose resolved candidate file is one
byte long classifies Wasm — not Unsupported — when the capability probe
accepts, so the Unsupported outcome is not independent of the probe. -/
theorem short_file_can_classify_wasm :
    (Candidate.mk (some 0o755) [0x00]).bytes.length < 4 ∧
    classify engineYes ctxShortRead = InnerExecutor.Wasm ∧
    classify engineYes ctxShortRead ≠ InnerExecutor.CantHandle := by decide

/-- C7: on one executor instance, classifying twice without mutating the
context returns the same variant, runs the classification body (the
filesystem probe) at most once in total, and later `validate` and `exec`
calls on the same instance run it zero further times while seeing the
cached decision in the cell. -/
theorem classify_cached_and_probe_once (engine : Engine) (ctx : Ctx) :
    (((freshExecutor engine).innerGet ctx).2.1.innerGet ctx).1
        = ((freshExecutor engine).innerGet ctx).1 ∧
    ((freshExecutor engine).innerGet ctx).2.2
        + (((freshExecutor engine).innerGet ctx).2.1.innerGet ctx).2.2 ≤ 1 ∧
    (((freshExecutor engine).innerGet ctx).2.1.validate ctx).2.2 = 0 ∧
    (((freshExecutor engine).innerGet ctx).2.1.exec ctx).2.2 = 0 ∧
    (((freshExecutor engine).innerGet ctx).2.1.validate ctx).2.1.inner
        = some ((freshExecutor engine).innerGet ctx).1 ∧
    (((freshExecutor engine).innerGet ctx).2.1.exec ctx).2.1.inner
        = some ((freshExecutor engine).innerGet ctx).1 := by
  cases hc : classify engine ctx
  case Wasm =>
    simp only [freshExecutor, Executor.innerGet, Executor.validate, Executor.exec, hc]
    cases hr : engine.run_wasi ctx <;> simp [hr]
  all_goals
    simp [freshExecutor, Executor.innerGet, Executor.validate, Executor.exec, hc]

/-- C10: the `OnceCell` cache is keyed to the executor instance, not to
the spec: after the first classification, a later call with any other
spec returns the first cached decision, leaves the state unchanged, and
runs the classification body zero times — the new spec is never
inspected. -/
theorem cache_keyed_to_instance_not_spec (engine : Engine) (ctx1 ctx2 : Ctx) :
    ((freshExecutor engine).innerGet ctx1).2.1.innerGet ctx2
      = (((freshExecutor engine).innerGet ctx1).1,
         ((freshExecutor engine).innerGet ctx1).2.1, 0) := rfl

/-- C8 (amended): for a context classified Unsupported (CantHandle),
`Executor::validate` and `Executor::exec` surface a capability-mismatch
error naming the current engine identity only — the classification's
reason string is logged, not carried in the error — and `Executor::exec`
performs no execution (it returns the error); `DistributedExecuter::validate`
surfaces nothing at all, returning `Ok(())` unconditionally. -/
theorem unsupported_error_names_engine_only (engine : Engine) (ctx : Ctx)
    (h : classify engine ctx = InnerExecutor.CantHandle) :
    ((freshExecutor engine).validate ctx).1
        = Except.error (ValidationError.CantHandle engine.name) ∧
    ((freshExecutor engine).exec ctx).1
        = ProcessOutcome.returnErr engine.name ∧
    distributedValidate ctx = Except.ok () := by
  refine ⟨?_, ?_, rfl⟩ <;>
    simp [Executor.validate, Executor.exec, Executor.innerGet, freshExecutor, h]

/-- C8 (witness): an unsupported context with the rejecting engine. -/
theorem unsupported_error_names_engine_only_witness :
    ((freshExecutor engineNo).validate ctxUnsupported).1
        = Except.error (ValidationError.CantHandle "myEngine") ∧
    ((freshExecutor engineNo).exec ctxUnsupported).1
        = ProcessOutcome.returnErr "myEngine" ∧
    distributedValidate ctxUnsupported = Except.ok () :=
  unsupported_error_names_engine_only engineNo ctxUnsupported (by decide)

/-- C8 (counterexample): for a context the probe rejects with reason
"r0", the surfaced error is `CantHandle("myEngine")`, whose only string
payload is the engine identity — the reason "r0" is not named in it —
and the distributed dispatcher's `validate` surfaces no error at all. -/
theorem validation_error_lacks_reason :
    engineNo.can_handle ctxUnsupported = Except.error "r0" ∧
    ((freshExecutor engineNo).validate ctxUnsupported).1
        = Except.error (ValidationError.CantHandle "myEngine") ∧
    ValidationError.CantHandle "myEngine" ≠ ValidationError.CantHandle "r0" ∧
    distributedValidate ctxUnsupported = Except.ok () := by decide

/-- C9 (amended): `Executor::exec` delegates a Native-classified context
unmodified — the very same spec — to the `DefaultExecutor` (the
NativeDelegate), whose outcome is the final outcome, and that code path
contains no remote call; `DistributedExecuter::exec`, by contrast,
issues the remote `RunWasi` call for every context, Native-classified
ones included, and never invokes the delegate. -/
theorem native_delegated_unmodified (engine : Engine) (ctx : Ctx)
    (remote : Remote) (bytes : List Nat)
    (h : classify engine ctx = InnerExecutor.Linux)
    (hb : ctx.sourceBytes = some bytes) (hc : remote.connect = Except.ok ()) :
    ((freshExecutor engine).exec ctx).1 = ProcessOutcome.delegated ctx ∧
    (distributedExec remote ctx).2 = some (buildRequest ctx bytes) := by
  constructor
  · simp [Executor.exec, Executor.innerGet, freshExecutor, h]
  · simp only [distributedExec, hb, hc]
    cases hr : remote.run_wasi (buildRequest ctx bytes) <;> simp [hr]

/-- C9 (witness): the ELF context of Scenario A. -/
theorem native_delegated_unmodified_witness :
    ((freshExecutor engineNo).exec ctxElf).1 = ProcessOutcome.delegated ctxElf ∧
    (distributedExec remoteOk0 ctxElf).2
        = some (buildRequest ctxElf (elfHeader ++ [0x02, 0x00])) :=
  native_delegated_unmodified engineNo ctxElf remoteOk0 (elfHeader ++ [0x02, 0x00])
    (by decide) rfl rfl

/-- C9 (counterexample): for the Native-classified ELF context the
distributed dispatcher does issue a network call to the remote execution
endpoint (the request is sent) and produces `Ok(())` rather than a
delegation to the NativeDelegate. -/
theorem native_context_still_sent_remotely :
    classify engineNo ctxElf = InnerExecutor.Linux ∧
    (distributedExec remoteOk0 ctxElf).1 = ProcessOutcome.returnOk ∧
    (distributedExec remoteOk0 ctxElf).2
        = some (buildRequest ctxElf (elfHeader ++ [0x02, 0x00])) := by decide
